import Mathlib

/-!
Verification development for the Voice2Web repository.

The definitions below are a shallow embedding of the intent-resolution and
action-dispatch pipeline:

* `src/unnamed/part_002` (intent service: `callGrok`, `fallbackIntentRecognition`,
  `extractEntities`, `processIntent`),
* `src/backend/src/app.js` (second copy of the intent service with a flat
  normalization step in `processIntent`),
* `src/backend/src/search.js` (the `IntentHandler` dispatcher and the content
  automation listener with `handleSummarize`),
* `src/unnamed/part_006` (the content script listener with `summarize`).

Strings are processed as `List Char`.  JavaScript regular expressions used by
the source are embedded as explicit scanners with the same leftmost-match,
ordered-alternation and greedy/backtracking behaviour on the character classes
the source uses (ASCII approximations of `\s`, `\d`, `[a-zA-Z]`, as the inputs
of interest are ASCII).  Effectful inputs (current time/date, `Math.random`'s
joke index) are passed explicitly in an environment record, and the external
collaborators (the LLM SDK call, `eval`, the DOM handlers) are parameters or
explicitly modelled outcomes.
-/

namespace Voice2Web

/-! ### Character classes and basic string helpers -/

/-- ASCII approximation of the JavaScript `\s` class (space, tab, newline,
carriage return, vertical tab, form feed). -/
def wsChar (c : Char) : Bool :=
  c = ' ' ∨ c = '\t' ∨ c = '\n' ∨ c = '\r' ∨ c = '\x0b' ∨ c = '\x0c'

/-- Characters matched by `.` in a JavaScript regex: everything except line
terminators. -/
def notNl (c : Char) : Bool :=
  ¬ (c = '\n' ∨ c = '\r' ∨ c = '\u2028' ∨ c = '\u2029')

/-- `String.prototype.toLowerCase` (ASCII range). -/
def lowerL (l : List Char) : List Char := l.map Char.toLower

/-- `String.prototype.trim`: strip leading and trailing whitespace. -/
def trimL (l : List Char) : List Char :=
  ((l.dropWhile wsChar).reverse.dropWhile wsChar).reverse

/-- Pack a character list back into a `String`. -/
def strOf (l : List Char) : String := String.mk l

/-- Case-sensitive literal prefix test. -/
def startsHere : List Char → List Char → Bool
  | [], _ => true
  | _ :: _, [] => false
  | n :: ns, h :: hs => n = h ∧ startsHere ns hs

/-- `hay.includes(needle)` on character lists. -/
def includesL (hay needle : List Char) : Bool :=
  match hay with
  | [] => startsHere needle []
  | _ :: tl => startsHere needle hay ∨ includesL tl needle

/-- The lowercased, trimmed text used by `fallbackIntentRecognition`
(`const lowerText = text.toLowerCase().trim()`). -/
def lowerTrim (text : String) : List Char := trimL (lowerL text.toList)

/-- Case-insensitive literal prefix test (a literal inside a `/.../i` regex). -/
def matchPrefixCI : List Char → List Char → Bool
  | [], _ => true
  | _ :: _, [] => false
  | p :: ps, c :: cs => p.toLower = c.toLower ∧ matchPrefixCI ps cs

/-- `String.prototype.toUpperCase` (ASCII range). -/
def upperStr (s : String) : String := String.mk (s.toList.map Char.toUpper)

/-! ### Entities -/

/-- A loosely typed JavaScript value stored in an entities object. -/
inductive EntVal : Type
  | s (v : String)
  | q (v : Rat)
  | ns (v : List Int)
  | b (v : Bool)
  | null
  deriving DecidableEq, Repr

/-- An entities object: association list in insertion order. -/
abbrev Entities : Type := List (String × EntVal)

/-- Property lookup on an entities object. -/
def entGet : Entities → String → Option EntVal
  | [], _ => none
  | e :: tl, k => if e.1 = k then some e.2 else entGet tl k

/-- Assign one property, JavaScript-object style: overwrite in place if the key
exists, append otherwise. -/
def insertEnt (es : Entities) (kv : String × EntVal) : Entities :=
  if es.any (fun e => e.1 = kv.1) then
    es.map (fun e => if e.1 = kv.1 then kv else e)
  else es ++ [kv]

/-- Spread merge `{ ...a, ...b }`: entries of `b` override entries of `a`. -/
def mergeEnt (a b : Entities) : Entities := b.foldl insertEnt a

/-! ### Embedded regex scanners for `extractEntities` (part_002 lines 757-799)

Each JavaScript pattern becomes a matcher `List Char → Option Nat` giving the
length of the match anchored at the head, and `scanFirstLen` produces the
leftmost match, as `String.prototype.match` does for the first element of its
result. -/

/-- Leftmost match: try the anchored matcher at every position, left to
right, and return the matched characters. -/
def scanFirstLen (m : List Char → Option Nat) : List Char → Option (List Char)
  | [] => (m []).map (fun n => (([] : List Char)).take n)
  | c :: tl =>
    match m (c :: tl) with
    | some n => some ((c :: tl).take n)
    | none => scanFirstLen m tl

/-- Maximal digit runs, as matched by `/\d+/g` (`acc` holds the digits of the
current run, most recent first). -/
def digitRunsAux : List Char → List Char → List (List Char)
  | [], acc => if acc = [] then [] else [acc.reverse]
  | c :: tl, acc =>
    if c.isDigit then digitRunsAux tl (c :: acc)
    else if acc = [] then digitRunsAux tl [] else acc.reverse :: digitRunsAux tl []

/-- Maximal digit runs, as matched by `/\d+/g`. -/
def digitRuns (l : List Char) : List (List Char) := digitRunsAux l []

/-- `parseInt` on a run of decimal digits. -/
def intOfDigits (l : List Char) : Int :=
  l.foldl (fun n c => n * 10 + ((c.toNat - '0'.toNat : Nat) : Int)) 0

/-- `n` digits available at the head (`\d{n}` when the continuation fixes the
count). -/
def digitsAt (n : Nat) (l : List Char) : Bool :=
  ((l.take n).length = n) ∧ (l.take n).all Char.isDigit

/-- Length contributed by `(?:am|pm)` at the head under the `i` flag
(2 on a hit, 0 otherwise). -/
def ampmLen : List Char → Nat
  | a :: b :: _ => if (a.toLower = 'a' ∨ a.toLower = 'p') ∧ b.toLower = 'm' then 2 else 0
  | _ => 0

/-- Length consumed by `\s?(?:am|pm)?`: both parts optional and greedy, with
nothing following, so no backtracking arises. -/
def wsAmpmOptLen : List Char → Nat
  | [] => 0
  | c :: r => if wsChar c then 1 + ampmLen r else ampmLen (c :: r)

/-- Length consumed by `\s?(?:am|pm)` (the `am|pm` is mandatory): the greedy
`\s?` backtracks to empty when the suffix fails after the whitespace. -/
def wsThenAmpmLen : List Char → Option Nat
  | [] => none
  | c :: r =>
    if wsChar c ∧ ampmLen r = 2 then some 3
    else if ampmLen (c :: r) = 2 then some 2 else none

/-- One greedy choice of `\d{1,2}:\d{2}\s?(?:am|pm)?` with `n` leading
digits. -/
def timeAlt1TryN (n : Nat) (l : List Char) : Option Nat :=
  if digitsAt n l then
    match l.drop n with
    | ':' :: r2 =>
      if digitsAt 2 r2 then some (n + 3 + wsAmpmOptLen (r2.drop 2)) else none
    | _ => none
  else none

/-- One greedy choice of `\d{1,2}\s?(?:am|pm)` with `n` leading digits. -/
def timeAlt2TryN (n : Nat) (l : List Char) : Option Nat :=
  if digitsAt n l then (wsThenAmpmLen (l.drop n)).map (fun k => n + k) else none

/-- Anchored matcher for
`/\d{1,2}:\d{2}\s?(?:am|pm)?|\d{1,2}\s?(?:am|pm)/i`: alternatives in listed
order, `\d{1,2}` greedy. -/
def timeMatchAt (l : List Char) : Option Nat :=
  (timeAlt1TryN 2 l).orElse fun _ =>
    (timeAlt1TryN 1 l).orElse fun _ =>
      (timeAlt2TryN 2 l).orElse fun _ => timeAlt2TryN 1 l

/-- Anchored matcher for `/https?:\/\/[^\s]+/` (case-sensitive). -/
def urlMatchAt (l : List Char) : Option Nat :=
  let tryRest (sN : Nat) (r : List Char) : Option Nat :=
    if startsHere "://".toList r then
      let run := ((r.drop 3).takeWhile (fun c => ¬ wsChar c)).length
      if run ≥ 1 then some (4 + sN + 3 + run) else none
    else none
  if startsHere "http".toList l then
    match l.drop 4 with
    | 's' :: r2 => (tryRest 1 r2).orElse fun _ => tryRest 0 ('s' :: r2)
    | r => tryRest 0 r
  else none

/-- The local-part class `[a-zA-Z0-9._%+-]`. -/
def isLocalChar (c : Char) : Bool :=
  c.isAlphanum ∨ c = '.' ∨ c = '_' ∨ c = '%' ∨ c = '+' ∨ c = '-'

/-- The domain class `[a-zA-Z0-9.-]`. -/
def isDomChar (c : Char) : Bool := c.isAlphanum ∨ c = '.' ∨ c = '-'

/-- Backtracking split of the greedy `[a-zA-Z0-9.-]+\.[a-zA-Z]{2,}` tail: the
largest `k ≥ 1` such that the domain run has `'.'` at index `k` followed by at
least two alphabetic characters; returns `(k, alphaLen)`. -/
def emailDomSplit (dr : List Char) : Option (Nat × Nat) :=
  (List.range dr.length).reverse.findSome? fun k =>
    if k ≥ 1 ∧ dr.get? k = some '.' then
      let aLen := ((dr.drop (k + 1)).takeWhile Char.isAlpha).length
      if aLen ≥ 2 then some (k, aLen) else none
    else none

/-- Anchored matcher for `/[a-zA-Z0-9._%+-]+@[a-zA-Z0-9.-]+\.[a-zA-Z]{2,}/`. -/
def emailMatchAt (l : List Char) : Option Nat :=
  let lr := (l.takeWhile isLocalChar).length
  if lr ≥ 1 then
    match l.drop lr with
    | '@' :: r2 =>
      (emailDomSplit (r2.takeWhile isDomChar)).map fun p => lr + 1 + p.1 + 1 + p.2
    | _ => none
  else none

/-- Anchored matcher for `/\d{1,2}\/\d{1,2}\/\d{2,4}/` with greedy
backtracking on the `{1,2}` counts. -/
def slashDateAt (l : List Char) : Option Nat :=
  let try2nd (n1 : Nat) (r1 : List Char) (n2 : Nat) : Option Nat :=
    if digitsAt n2 r1 ∧ (r1.drop n2).head? = some '/' then
      let run := ((r1.drop (n2 + 1)).takeWhile Char.isDigit).length
      if run ≥ 2 then some (n1 + 1 + n2 + 1 + min run 4) else none
    else none
  let try1st (n1 : Nat) : Option Nat :=
    if digitsAt n1 l ∧ (l.drop n1).head? = some '/' then
      (try2nd n1 (l.drop (n1 + 1)) 2).orElse fun _ => try2nd n1 (l.drop (n1 + 1)) 1
    else none
  (try1st 2).orElse fun _ => try1st 1

/-- Anchored matcher for `/\d{4}-\d{2}-\d{2}/`. -/
def dashDateAt (l : List Char) : Option Nat :=
  if digitsAt 4 l ∧ (l.drop 4).head? = some '-' ∧ digitsAt 2 (l.drop 5) ∧
      (l.drop 7).head? = some '-' ∧ digitsAt 2 (l.drop 8) then
    some 10
  else none

/-- First `/\d{1,2}:\d{2}\s?(?:am|pm)?|\d{1,2}\s?(?:am|pm)/gi` match. -/
def firstTimeMatch (t : String) : Option (List Char) := scanFirstLen timeMatchAt t.toList

/-- First `/https?:\/\/[^\s]+/g` match. -/
def firstUrlMatch (t : String) : Option (List Char) := scanFirstLen urlMatchAt t.toList

/-- First `/[a-zA-Z0-9._%+-]+@[a-zA-Z0-9.-]+\.[a-zA-Z]{2,}/g` match. -/
def firstEmailMatch (t : String) : Option (List Char) := scanFirstLen emailMatchAt t.toList

/-- First `/\d{1,2}\/\d{1,2}\/\d{2,4}/g` match. -/
def firstSlashDate (t : String) : Option (List Char) := scanFirstLen slashDateAt t.toList

/-- First `/\d{4}-\d{2}-\d{2}/g` match. -/
def firstDashDate (t : String) : Option (List Char) := scanFirstLen dashDateAt t.toList

/-- `extractEntities` (part_002 lines 757-799, identical copy in app.js):
numbers, a single time expression, a single URL, a single email, and a single
date with the `MM/DD/YYYY` pattern tried before `YYYY-MM-DD`; keys without a
match are never added. -/
def extractEntities (text : String) : Entities :=
  (if digitRuns text.toList ≠ [] then
      [("numbers", EntVal.ns ((digitRuns text.toList).map intOfDigits))]
    else [])
  ++ (match firstTimeMatch text with
      | some m => [("time", EntVal.s (strOf m))]
      | none => [])
  ++ (match firstUrlMatch text with
      | some m => [("url", EntVal.s (strOf m))]
      | none => [])
  ++ (match firstEmailMatch text with
      | some m => [("email", EntVal.s (strOf m))]
      | none => [])
  ++ (match firstSlashDate text with
      | some m => [("date", EntVal.s (strOf m))]
      | none =>
        match firstDashDate text with
        | some m => [("date", EntVal.s (strOf m))]
        | none => [])

/-! ### Global case-insensitive replace and capture combinators -/

/-- First alternative (in listed order) matching case-insensitively at the
head; returns its length.  Alternatives are nonempty literals. -/
def findAltHere (alts : List (List Char)) (l : List Char) : Option Nat :=
  alts.findSome? fun a => if a ≠ [] ∧ matchPrefixCI a l then some a.length else none

/-- Worker for `String.prototype.replace` with a `/lit1|lit2|.../gi` regex:
scan left to right, replace each non-overlapping leftmost match, continue
after it.  `fuel` starts at the list length and dominates it throughout. -/
def replaceAltsGo (alts : List (List Char)) (repl : List Char) :
    Nat → List Char → List Char
  | _, [] => []
  | 0, l => l
  | f + 1, c :: tl =>
    match findAltHere alts (c :: tl) with
    | some a => repl ++ replaceAltsGo alts repl f (tl.drop (a - 1))
    | none => c :: replaceAltsGo alts repl f tl

/-- `text.replace(/alt1|alt2|.../gi, repl)`. -/
def replaceAltsCI (alts : List String) (repl : String) (text : String) : String :=
  strOf (replaceAltsGo (alts.map String.toList) repl.toList text.toList.length text.toList)

/-- Greedy `\s+` followed by `(.+)` at `rest`: consume the longest whitespace
run that still leaves at least one `.`-matchable character, and capture the
run of non-line-terminator characters after it.  `k` counts the whitespace
still allowed to be consumed (tried longest first, regex-greedy). -/
def backtrackCap : Nat → List Char → Option (List Char)
  | 0, _ => none
  | k + 1, rest =>
    let cap := (rest.drop (k + 1)).takeWhile notNl
    if cap ≠ [] then some cap else backtrackCap k rest

/-- `\s+(.+)` at the head of `rest`. -/
def capAfterWs (rest : List Char) : Option (List Char) :=
  backtrackCap ((rest.takeWhile wsChar).length) rest

/-- Alternatives tried in listed order at one position for
`/(?:alt1|alt2|...)\s+(.+)/i`. -/
def tryAltsAt (alts : List (List Char)) (l : List Char) : Option (List Char) :=
  alts.findSome? fun a => if matchPrefixCI a l then capAfterWs (l.drop a.length) else none

/-- Leftmost match of `/(?:alt1|alt2|...)\s+(.+)/i`, returning the capture. -/
def scanAltCaptureL (alts : List (List Char)) : List Char → Option (List Char)
  | [] => none
  | c :: tl =>
    match tryAltsAt alts (c :: tl) with
    | some cap => some cap
    | none => scanAltCaptureL alts tl

/-- `text.match(/(?:alt1|...)\s+(.+)/i)` giving capture group 1. -/
def scanAltCapture (alts : List String) (text : String) : Option String :=
  (scanAltCaptureL (alts.map String.toList) text.toList).map strOf

/-! ### A model of `eval` on arithmetic expression strings

`eval` is a JavaScript builtin; the calculation handler only reaches it
through the `/^[0-9+\-*\/().\s]+$/` guard, and this evaluator models its
behaviour on that fragment: numeric literals, `+ - * /`, parentheses and
unary signs over JavaScript numbers (represented as rationals; a syntax error
or division by zero yields `none` — JavaScript would return `Infinity` for
the latter, which no guarded expression in the claims exercises). -/

inductive Tok : Type
  | num (q : Rat)
  | addT
  | subT
  | mulT
  | divT
  | lparen
  | rparen
  deriving DecidableEq, Repr

/-- Numeric value of `d1.d2`. -/
def mkDec (d1 d2 : List Char) : Rat :=
  (intOfDigits d1 : Rat) + (intOfDigits d2 : Rat) / ((10 : Rat) ^ d2.length)

/-- Tokenizer for the guarded character class (fuel-structural; fuel starts
at the list length). -/
def tokenizeGo : Nat → List Char → Option (List Tok)
  | _, [] => some []
  | 0, _ => none
  | f + 1, c :: tl =>
    if wsChar c then tokenizeGo f tl
    else if c.isDigit ∨ c = '.' then
      let d1 := (c :: tl).takeWhile Char.isDigit
      match (c :: tl).dropWhile Char.isDigit with
      | '.' :: r2 =>
        let d2 := r2.takeWhile Char.isDigit
        if d1 = [] ∧ d2 = [] then none
        else
          (tokenizeGo f (r2.dropWhile Char.isDigit)).map fun ts => Tok.num (mkDec d1 d2) :: ts
      | r1 =>
        if d1 = [] then none
        else (tokenizeGo f r1).map fun ts => Tok.num ((intOfDigits d1 : Rat)) :: ts
    else
      let tok : Option Tok :=
        if c = '+' then some Tok.addT
        else if c = '-' then some Tok.subT
        else if c = '*' then some Tok.mulT
        else if c = '/' then some Tok.divT
        else if c = '(' then some Tok.lparen
        else if c = ')' then some Tok.rparen
        else none
      match tok with
      | some t => (tokenizeGo f tl).map fun ts => t :: ts
      | none => none

/-- Tokenize an expression string. -/
def tokenize (s : String) : Option (List Tok) := tokenizeGo s.toList.length s.toList

mutual

/-- Factor: unary sign, parenthesized expression, or numeric literal. -/
def pFactor : Nat → List Tok → Option (Rat × List Tok)
  | 0, _ => none
  | f + 1, ts =>
    match ts with
    | Tok.num q :: r => some (q, r)
    | Tok.subT :: r => (pFactor f r).map fun p => (-p.1, p.2)
    | Tok.addT :: r => pFactor f r
    | Tok.lparen :: r =>
      match pExpr f r with
      | some (v, Tok.rparen :: r2) => some (v, r2)
      | _ => none
    | _ => none

/-- Term: factors combined by `*` and `/`, left associative. -/
def pTerm : Nat → List Tok → Option (Rat × List Tok)
  | 0, _ => none
  | f + 1, ts =>
    match pFactor f ts with
    | some (v, r) => pTermLoop f v r
    | none => none

/-- Loop for `*` and `/` at the current precedence level. -/
def pTermLoop : Nat → Rat → List Tok → Option (Rat × List Tok)
  | 0, _, _ => none
  | f + 1, v, ts =>
    match ts with
    | Tok.mulT :: r =>
      match pFactor f r with
      | some (w, r2) => pTermLoop f (v * w) r2
      | none => none
    | Tok.divT :: r =>
      match pFactor f r with
      | some (w, r2) => if w = 0 then none else pTermLoop f (v / w) r2
      | none => none
    | _ => some (v, ts)

/-- Expression: terms combined by `+` and `-`, left associative. -/
def pExpr : Nat → List Tok → Option (Rat × List Tok)
  | 0, _ => none
  | f + 1, ts =>
    match pTerm f ts with
    | some (v, r) => pExprLoop f v r
    | none => none

/-- Loop for `+` and `-` at the top precedence level. -/
def pExprLoop : Nat → Rat → List Tok → Option (Rat × List Tok)
  | 0, _, _ => none
  | f + 1, v, ts =>
    match ts with
    | Tok.addT :: r =>
      match pTerm f r with
      | some (w, r2) => pExprLoop f (v + w) r2
      | none => none
    | Tok.subT :: r =>
      match pTerm f r with
      | some (w, r2) => pExprLoop f (v - w) r2
      | none => none
    | _ => some (v, ts)

end

/-- The model of `eval` on a guarded arithmetic expression string. -/
def evalArith (s : String) : Option Rat :=
  match tokenize s with
  | none => none
  | some ts =>
    match pExpr (4 * ts.length + 4) ts with
    | some (v, []) => some v
    | _ => none

/-- Rendering of a JavaScript number in a template literal.  Only integral
results are exercised by the source's messages of interest; non-integral
rationals are rendered as a fraction (JavaScript would print a decimal
expansion). -/
def ratToStr (q : Rat) : String :=
  if q.den = 1 then toString q.num else toString q.num ++ "/" ++ toString q.den

/-! ### Fallback rule engine (part_002 lines 544-749, identical copy in app.js) -/

/-- `String.prototype.trim`. -/
def jsTrim (s : String) : String := strOf (trimL s.toList)

/-- A `{message, entities}` object returned by a pattern handler. -/
structure HandlerRes : Type where
  message : String
  entities : Entities
  deriving DecidableEq, Repr

/-- The effectful inputs of the fallback engine, passed explicitly: the
strings produced by `toLocaleTimeString`/`toLocaleDateString` for the current
instant, and the index drawn by `Math.floor(Math.random() * jokes.length)`. -/
structure FbEnv : Type where
  timeString : String
  dateString : String
  jokeIdx : Nat

/-- Generic leftmost scan for a matcher that returns a capture directly. -/
def scanFirstCap (m : List Char → Option (List Char)) : List Char → Option (List Char)
  | [] => m []
  | c :: tl =>
    match m (c :: tl) with
    | some r => some r
    | none => scanFirstCap m tl

/-- Anchored `/remind me (?:to )?(.+)/i`: the greedy optional `to ` is tried
first and backtracks to empty if nothing capturable follows it. -/
def remindAt (l : List Char) : Option (List Char) :=
  if matchPrefixCI "remind me ".toList l then
    let rest := l.drop 10
    if matchPrefixCI "to ".toList rest ∧ ((rest.drop 3).takeWhile notNl ≠ []) then
      some ((rest.drop 3).takeWhile notNl)
    else if rest.takeWhile notNl ≠ [] then some (rest.takeWhile notNl)
    else none
  else none

/-- `text.match(/remind me (?:to )?(.+)/i)` capture group 1. -/
def matchRemind (text : String) : Option String :=
  (scanFirstCap remindAt text.toList).map strOf

/-- One greedy choice of `\d{1,2}:\d{2}(?:\s?(?:am|pm))?` (the reminder time
pattern: the whole `\s?(?:am|pm)` group is optional, with `am|pm` mandatory
inside it) with `n` leading digits. -/
def timeGroupAlt1TryN (n : Nat) (l : List Char) : Option Nat :=
  if digitsAt n l then
    match l.drop n with
    | ':' :: r2 =>
      if digitsAt 2 r2 then some (n + 3 + ((wsThenAmpmLen (r2.drop 2)).getD 0)) else none
    | _ => none
  else none

/-- Anchored `/at (\d{1,2}:\d{2}(?:\s?(?:am|pm))?|\d{1,2}\s?(?:am|pm))/i`,
returning capture group 1. -/
def atTimeAt (l : List Char) : Option (List Char) :=
  if matchPrefixCI "at ".toList l then
    let r := l.drop 3
    ((timeGroupAlt1TryN 2 r).orElse fun _ =>
        (timeGroupAlt1TryN 1 r).orElse fun _ =>
          (timeAlt2TryN 2 r).orElse fun _ => timeAlt2TryN 1 r).map fun n => r.take n
  else none

/-- `reminder.match(/at (...)/i)` capture group 1. -/
def matchAtTime (s : String) : Option String :=
  (scanFirstCap atTimeAt s.toList).map strOf

/-- Worker for the non-global `reminder.replace(/at .+/i, '')`: delete the
first `at ` followed by the rest of its line. -/
def replAtRestGo : List Char → List Char
  | [] => []
  | c :: tl =>
    if matchPrefixCI "at ".toList (c :: tl) ∧ ((c :: tl).drop 3).takeWhile notNl ≠ [] then
      ((c :: tl).drop 3).dropWhile notNl
    else c :: replAtRestGo tl

/-- `reminder.replace(/at .+/i, '')`. -/
def replaceAtRestOnce (s : String) : String := strOf (replAtRestGo s.toList)

/-- The `time` pattern handler. -/
def timeHandler (env : FbEnv) (_text : String) : HandlerRes :=
  { message := "The current time is " ++ env.timeString ++ "."
    entities := [("time", EntVal.s env.timeString)] }

/-- The `date` pattern handler. -/
def dateHandler (env : FbEnv) (_text : String) : HandlerRes :=
  { message := "Today is " ++ env.dateString ++ "."
    entities := [("date", EntVal.s env.dateString)] }

/-- The `search` pattern handler. -/
def searchHandler (_env : FbEnv) (text : String) : HandlerRes :=
  let query := jsTrim (replaceAltsCI ["search for", "look up", "find", "google"] "" text)
  { message := "I'll help you search for \"" ++ query ++ "\"."
    entities := [("query", EntVal.s query), ("action", EntVal.s "search")] }

/-- The `open_website` pattern handler. -/
def openWebsiteHandler (_env : FbEnv) (text : String) : HandlerRes :=
  let site :=
    match scanAltCapture ["open", "go to", "navigate to", "visit", "launch"] text with
    | some cap => jsTrim cap
    | none => "the website"
  { message := "Opening " ++ site ++ "..."
    entities := [("website", EntVal.s site), ("action", EntVal.s "open")] }

/-- The `reminder` pattern handler. -/
def reminderHandler (_env : FbEnv) (text : String) : HandlerRes :=
  let reminder :=
    match matchRemind text with
    | some cap => jsTrim cap
    | none => "that"
  let time := matchAtTime reminder
  let task :=
    match time with
    | some _ => jsTrim (replaceAtRestOnce reminder)
    | none => reminder
  { message :=
      "I'll remind you to " ++ task ++
        (match time with | some t => " at " ++ t | none => "") ++ "."
    entities :=
      [("task", EntVal.s task),
        ("time", match time with | some t => EntVal.s t | none => EntVal.null),
        ("action", EntVal.s "reminder")] }

/-- The character class `[0-9+\-*\/().\s]` guarding `eval`. -/
def isSafeCalcChar (c : Char) : Bool :=
  c.isDigit ∨ c = '+' ∨ c = '-' ∨ c = '*' ∨ c = '/' ∨ c = '(' ∨ c = ')' ∨ c = '.' ∨ wsChar c

/-- The expression before the strip: capture after `calculate`/`what is`
(or the whole text), then the word-to-operator replacements in source
order. -/
def calcRawExpr (text : String) : String :=
  let mathMatch := scanAltCapture ["calculate", "what is"] text
  let e0 := mathMatch.getD text
  let e1 := replaceAltsCI ["plus"] "+" e0
  let e2 := replaceAltsCI ["add"] "+" e1
  let e3 := replaceAltsCI ["minus"] "-" e2
  let e4 := replaceAltsCI ["subtract"] "-" e3
  let e5 := replaceAltsCI ["times"] "*" e4
  let e6 := replaceAltsCI ["multiplyed by", "multiply by"] "*" e5
  replaceAltsCI ["divided by"] "/" e6

/-- The expression string that the calculation handler builds before the
safety test: the raw expression stripped of everything outside the safe
class, then trimmed. -/
def calcExpr (text : String) : String :=
  strOf (trimL ((calcRawExpr text).toList.filter isSafeCalcChar))

/-- `/^[0-9+\-*\/().\s]+$/.test(expression)`: nonempty and every character in
the class. -/
def safeTest (s : String) : Bool := s.toList ≠ [] ∧ s.toList.all isSafeCalcChar

/-- The string the calculation handler passes to `eval`, when it reaches the
`eval` call at all. -/
def calculationEvalArg (text : String) : Option String :=
  if safeTest (calcExpr text) then some (calcExpr text) else none

/-- The `calculation` pattern handler, parameterized by the `eval` model
(`none` plays the role of a thrown exception, which the source catches). -/
def calculationHandler (ev : String → Option Rat) (text : String) : HandlerRes :=
  let expression := calcExpr text
  if safeTest expression then
    match ev expression with
    | some result =>
      { message := "The answer is " ++ ratToStr result ++ "."
        entities :=
          [("expression", EntVal.s expression), ("result", EntVal.q result),
            ("action", EntVal.s "calculate")] }
    | none =>
      { message := "Sorry, I couldn't calculate that. Please try again.", entities := [] }
  else
    { message := "I couldn't understand that calculation. Try asking like 'what is 5 plus 3?'"
      entities := [] }

/-- The fixed joke list. -/
def jokes : List String :=
  ["Why don't scientists trust atoms? Because they make up everything!",
    "I told my wife she was drawing her eyebrows too high. She looked surprised.",
    "Why did the scarecrow win an award? He was outstanding in his field!",
    "What do you call a fake noodle? An impasta!",
    "Why don't eggs tell jokes? They'd crack each other up!",
    "What do you call a bear with no teeth? A gummy bear!",
    "Why did the math book look sad? Because it had too many problems.",
    "What do you call a pile of cats? A meowtain!",
    "Why don't oysters donate to charity? Because they're shellfish!",
    "What did the ocean say to the beach? Nothing, it just waved!"]

/-- The `joke` pattern handler; `Math.floor(Math.random() * jokes.length)` is
the environment's index, always in range. -/
def jokeHandler (env : FbEnv) (_text : String) : HandlerRes :=
  { message := jokes.getD (env.jokeIdx % jokes.length) ""
    entities := [("type", EntVal.s "joke")] }

/-- One entry of the fallback pattern table: keyword list, optional static
message, optional static entities, optional handler, confidence. -/
structure PatData : Type where
  keywords : List String
  message : Option String
  staticEntities : Entities
  handler : Option (FbEnv → String → HandlerRes)
  confidence : Rat

/-- The fallback pattern table in declaration order (part_002 lines
548-714). -/
def patterns : List (String × PatData) :=
  [("greeting",
      { keywords := ["hello", "hi", "hey", "greetings", "good morning", "good afternoon",
          "good evening"]
        message := some "Hello! I'm VoiceReplica. How can I help you today?"
        staticEntities := [], handler := none, confidence := 0.85 }),
    ("farewell",
      { keywords := ["bye", "goodbye", "see you", "farewell", "good night"]
        message := some "Goodbye! Have a great day!"
        staticEntities := [], handler := none, confidence := 0.85 }),
    ("thanks",
      { keywords := ["thank", "thanks", "appreciate", "grateful"]
        message := some "You're welcome! Happy to help!"
        staticEntities := [], handler := none, confidence := 0.85 }),
    ("help",
      { keywords := ["help", "assist", "what can you do", "support"]
        message := some "I can help you with:\n• Answering questions\n• Checking time and date\n• Opening websites\n• Setting reminders\n• Simple calculations\n• Telling jokes\n• And much more!"
        staticEntities := [], handler := none, confidence := 0.80 }),
    ("time",
      { keywords := ["time", "what time", "what's the time", "current time"]
        message := none, staticEntities := [], handler := some timeHandler
        confidence := 0.90 }),
    ("date",
      { keywords := ["date", "what date", "what's the date", "today", "what day"]
        message := none, staticEntities := [], handler := some dateHandler
        confidence := 0.90 }),
    ("weather",
      { keywords := ["weather", "temperature", "forecast", "raining", "sunny", "cloudy"]
        message := some "I don't have real-time weather data yet, but you can check your local weather service!"
        staticEntities := [("needsWeatherAPI", EntVal.b true)], handler := none
        confidence := 0.75 }),
    ("search",
      { keywords := ["search for", "look up", "find", "google"]
        message := none, staticEntities := [], handler := some searchHandler
        confidence := 0.85 }),
    ("open_website",
      { keywords := ["open", "go to", "navigate to", "visit", "launch"]
        message := none, staticEntities := [], handler := some openWebsiteHandler
        confidence := 0.88 }),
    ("reminder",
      { keywords := ["remind me", "set reminder", "remember to", "don't forget"]
        message := none, staticEntities := [], handler := some reminderHandler
        confidence := 0.82 }),
    ("calculation",
      { keywords := ["calculate", "what is", "plus", "minus", "times", "divided",
          "multiply", "add", "subtract"]
        message := none, staticEntities := []
        handler := some (fun _env text => calculationHandler evalArith text)
        confidence := 0.85 }),
    ("joke",
      { keywords := ["joke", "make me laugh", "something funny", "tell me a joke", "funny"]
        message := none, staticEntities := [], handler := some jokeHandler
        confidence := 0.80 })]

/-- The inner keyword loop: keywords scanned in listed order, stopping at the
first whose form is contained in the lowercased input. -/
def keywordLoop (lt : List Char) : List String → Bool
  | [] => false
  | k :: ks => if includesL lt k.toList then true else keywordLoop lt ks

/-- The outer pattern loop: patterns scanned in declaration order, returning
the first whose keyword loop hits. -/
def matchLoop (lt : List Char) : List (String × PatData) → Option (String × PatData)
  | [] => none
  | p :: ps => if keywordLoop lt p.2.keywords then some p else matchLoop lt ps

/-- The `IntentResult` object shape produced by the pipeline. -/
structure IntentResult : Type where
  intent : String
  entities : Entities
  message : String
  confidence : Rat
  model : String
  deriving DecidableEq, Repr

/-- `fallbackIntentRecognition` (part_002 lines 544-749): first-match-wins
over the pattern table; handler output overrides the static message/entities;
entities are enriched by `extractEntities` (which takes precedence on key
collisions); no match yields the `unknown` result. -/
def fallbackIntentRecognition (env : FbEnv) (text : String) : IntentResult :=
  let lowerText := lowerTrim text
  match matchLoop lowerText patterns with
  | some pd =>
    let withHandler : Option String × Entities :=
      match pd.2.handler with
      | some h => (some (h env text).message, mergeEnt pd.2.staticEntities (h env text).entities)
      | none => (pd.2.message, pd.2.staticEntities)
    { intent := pd.1
      entities := mergeEnt withHandler.2 (extractEntities text)
      message := withHandler.1.getD "undefined"
      confidence := pd.2.confidence
      model := "fallback-rule-based" }
  | none =>
    { intent := "unknown"
      entities := extractEntities text
      message := "I heard: \"" ++ text ++ "\". I'm not sure how to help with that yet. Try saying 'help' to see what I can do!"
      confidence := 0.30
      model := "fallback-rule-based" }

/-! ### The Grok call and `processIntent`

`callGrok` appears twice in the repository (part_002 and the copy appended to
app.js); both have the same control flow around the SDK call, so one model
covers both.  The catch dispatch depends only on the `status` field of the
thrown error, which is absent (`undefined`) for the JSON-parse errors thrown
inside the try block. -/

/-- `metadata` of a parsed Grok `data` object. -/
structure GrokMeta : Type where
  model : Option String

/-- A parsed Grok `data` object; each field may be absent in a malformed
reply, hence `Option`. -/
structure GrokData : Type where
  intentF : Option String
  entitiesF : Option Entities
  messageF : Option String
  confidenceF : Option Rat
  metadataF : Option GrokMeta

/-- A JavaScript value returned by `callGrok`: either a parsed LLM response
(with a `data` member) or the flat object built by
`fallbackIntentRecognition`.  All members are optional, mirroring property
access on an arbitrary parsed object. -/
structure GrokResponse : Type where
  dataF : Option GrokData
  intentF : Option String
  entitiesF : Option Entities
  messageF : Option String
  confidenceF : Option Rat
  modelF : Option String

/-- View a fallback result as the value `callGrok` returns on the fallback
path: a flat object with no `data` member. -/
def flatToResponse (r : IntentResult) : GrokResponse :=
  { dataF := none
    intentF := some r.intent
    entitiesF := some r.entities
    messageF := some r.message
    confidenceF := some r.confidence
    modelF := some r.model }

/-- `x || d` for an optionally-present string (absent and `""` are falsy). -/
def jsOrS (o : Option String) (d : String) : String :=
  match o with
  | some s => if s = "" then d else s
  | none => d

/-- `x || d` for an optionally-present number (absent and `0` are falsy). -/
def jsOrQ (o : Option Rat) (d : Rat) : Rat :=
  match o with
  | some q => if q = 0 then d else q
  | none => d

/-- The `ApiError` class (statusCode, message). -/
structure ApiErr : Type where
  statusCode : Nat
  message : String
  deriving DecidableEq, Repr

/-- The configuration slice the pipeline reads (part_000): `config.llm.model`
(default `grok-beta`) and `config.maxTextLength` (default 1000). -/
structure Config : Type where
  llmModel : String
  maxTextLength : Nat

/-- Outcome of the SDK call and response parsing, the external part of the
try block: a successfully parsed response (directly or via the `{...}`
extraction), a response whose content fails both parse attempts, or an SDK
error carrying an optional HTTP `status`. -/
inductive GrokOutcome : Type
  | parsed (r : GrokResponse)
  | parseFail
  | errStatus (status : Option Nat)

/-- The catch block of `callGrok` (part_002 lines 511-534): dispatch on
`error.status`. -/
def grokCatch (env : FbEnv) (userText : String) (status : Option Nat) :
    Except ApiErr GrokResponse :=
  if status = some 401 then
    Except.error { statusCode := 502, message := "Invalid LLM API key configuration" }
  else if status = some 429 then
    Except.error { statusCode := 429, message := "Rate limit exceeded. Please try again later." }
  else if status = some 500 ∨ status = some 503 then
    Except.ok (flatToResponse (fallbackIntentRecognition env userText))
  else
    Except.ok (flatToResponse (fallbackIntentRecognition env userText))

/-- `callGrok` (part_002 lines 58-535): with no client configured the
fallback result is returned from inside the try block; a parse failure throws
an error without a `status`, routed through the same catch as SDK errors. -/
def callGrok (env : FbEnv) (userText : String) (clientConfigured : Bool)
    (o : GrokOutcome) : Except ApiErr GrokResponse :=
  if ¬ clientConfigured then
    Except.ok (flatToResponse (fallbackIntentRecognition env userText))
  else
    match o with
    | GrokOutcome.parsed r => Except.ok r
    | GrokOutcome.parseFail => grokCatch env userText none
    | GrokOutcome.errStatus st => grokCatch env userText st

/-- The shared validation prefix of both `processIntent` variants.  A `some`
result is the trimmed text; `none` stands for a thrown 400 `ApiError`. -/
def validateText (cfg : Config) (text : String) : Except ApiErr String :=
  if text = "" then Except.error { statusCode := 400, message := "Invalid text input" }
  else if (jsTrim text).toList.length = 0 then
    Except.error { statusCode := 400, message := "Text cannot be empty" }
  else if (jsTrim text).toList.length > cfg.maxTextLength then
    Except.error
      { statusCode := 400
        message := "Text exceeds maximum length of " ++ toString cfg.maxTextLength ++
          " characters" }
  else Except.ok (jsTrim text)

/-- `processIntent` as written in part_002 (lines 814-851): the result is
normalized by reading `result?.data?.intent`, `result?.data?.entities`,
`result?.data?.message`, `result?.data?.confidence` and
`result?.data?.metadata?.model`, with `||` defaults.  (The only other throw
site, the final `catch`, rethrows `ApiError`s unchanged and can wrap nothing
else here because `callGrok` only ever throws `ApiError`s.) -/
def processIntent002 (cfg : Config) (env : FbEnv) (clientConfigured : Bool)
    (text : String) (o : GrokOutcome) : Except ApiErr IntentResult :=
  match validateText cfg text with
  | Except.error e => Except.error e
  | Except.ok trimmedText =>
    match callGrok env trimmedText clientConfigured o with
    | Except.error e => Except.error e
    | Except.ok result =>
      Except.ok
        { intent := jsOrS (result.dataF.bind GrokData.intentF) "unknown"
          entities := (result.dataF.bind GrokData.entitiesF).getD []
          message := jsOrS (result.dataF.bind GrokData.messageF) "Processing complete"
          confidence := jsOrQ (result.dataF.bind GrokData.confidenceF) 0.5
          model :=
            jsOrS (result.dataF.bind fun d => d.metadataF.bind GrokMeta.model) cfg.llmModel }

/-- `processIntent` as written in the copy inside app.js (lines 772-808): the
result is normalized by reading the flat `result.intent`, `result.entities`,
`result.message`, `result.confidence`, `result.model` with `||` defaults. -/
def processIntentApp (cfg : Config) (env : FbEnv) (clientConfigured : Bool)
    (text : String) (o : GrokOutcome) : Except ApiErr IntentResult :=
  match validateText cfg text with
  | Except.error e => Except.error e
  | Except.ok trimmedText =>
    match callGrok env trimmedText clientConfigured o with
    | Except.error e => Except.error e
    | Except.ok result =>
      Except.ok
        { intent := jsOrS result.intentF "unknown"
          entities := result.entitiesF.getD []
          message := jsOrS result.messageF "Processing complete"
          confidence := jsOrQ result.confidenceF 0.5
          model := jsOrS result.modelF cfg.llmModel }

/-! ### The `IntentHandler` dispatcher (search.js lines 3-78) -/

/-- Entities as read by the dispatcher handlers. -/
structure DEnt : Type where
  query : Option String
  keywords : Option (List String)
  website : Option String
  deriving DecidableEq, Repr

/-- Action objects built by the dispatcher.  `chromeSearch` carries the value
of `finalQuery`, which can be the JavaScript `undefined` when no query was
given. -/
inductive Action : Type
  | chromeSearch (text : Option String)
  | openUrl (url : String)
  | none_
  deriving DecidableEq, Repr

/-- Coercion of a possibly-`undefined` string into a template literal. -/
def jsStr (o : Option String) : String := o.getD "undefined"

/-- `website.startsWith('http')`. -/
def startsWithHttp (w : String) : Bool := startsHere "http".toList w.toList

/-- `handleOpenSite`'s URL resolution (search.js lines 49-54): keep the
website if it starts with `http`, otherwise prefix `https://`. -/
def handleOpenSiteUrl (w : String) : String :=
  if startsWithHttp w then w else "https://" ++ w

/-- `handleOpenSite`: reads `entities.website`; an absent website makes the
`startsWith` call throw, modelled by `none`. -/
def handleOpenSite (e : DEnt) : Option Action :=
  e.website.map fun w => Action.openUrl (handleOpenSiteUrl w)

/-- `handleSearch` (search.js lines 34-47): append joined keywords when
present and nonempty, prefix `site:<website>` when the website is truthy. -/
def handleSearch (e : DEnt) : Option Action :=
  let q0 := e.query
  let q1 : Option String :=
    match e.keywords with
    | some ks => if ks.length ≠ 0 then some (jsStr q0 ++ " " ++ String.intercalate " " ks) else q0
    | none => q0
  let q2 : Option String :=
    match e.website with
    | some w => if w ≠ "" then some ("site:" ++ w ++ " " ++ jsStr q1) else q1
    | none => q1
  some (Action.chromeSearch q2)

/-- The `handlers` map lookup (search.js lines 10-15): the `summarize` slot
exists but holds `undefined` because the class defines no `handleSummarize`
method, so `handlers[intent] || handleDefault` falls through to the default
for it, exactly as for missing keys. -/
def handlersLookup (k : String) : Option (DEnt → Option Action) :=
  if k = "search" then some handleSearch
  else if k = "website_search" then some handleSearch
  else if k = "open_site" then some handleOpenSite
  else none

/-- `IntentHandler.process`'s dispatch step: lowercase the intent, use the
mapped handler or `handleDefault` (which returns `{action:"NONE"}`).  `none`
models a thrown TypeError inside the chosen handler. -/
def dispatchAction (intent : String) (e : DEnt) : Option Action :=
  match handlersLookup (strOf (lowerL intent.toList)) with
  | some h => h e
  | none => some Action.none_

/-! ### The SUMMARIZE executors -/

/-- Worker for `replace(/\s+/g, ' ')`: each whitespace run becomes a single
space (fuel-structural; fuel starts at the list length and dominates it). -/
def collapseWsGo : Nat → List Char → List Char
  | _, [] => []
  | 0, l => l
  | f + 1, c :: tl =>
    if wsChar c then ' ' :: collapseWsGo f (tl.dropWhile wsChar)
    else c :: collapseWsGo f tl

/-- `text.replace(/\s+/g, ' ')`. -/
def collapseWsJs (l : List Char) : List Char := collapseWsGo l.length l

/-- Whitespace-run collapse written directly from the specification's words:
a run of whitespace contributes one space; the flag records whether the
previous character was whitespace. -/
def collapseSpec : List Char → Bool → List Char
  | [], _ => []
  | c :: tl, prevWs =>
    if wsChar c then
      (if prevWs then collapseSpec tl true else ' ' :: collapseSpec tl true)
    else c :: collapseSpec tl false

/-- The summary built by `handleSummarize` in the content half of search.js
(lines 309-325): collapse whitespace, trim, truncate to 5000 characters. -/
def handleSummarize (body : String) : String :=
  strOf ((trimL (collapseWsJs body.toList)).take 5000)

/-- The summary built by `summarize` in part_006 (lines 162-171): collapse
whitespace and truncate to 5000 characters — no trim. -/
def summarize (body : String) : String :=
  strOf ((collapseWsJs body.toList).take 5000)

/-- The SUMMARIZE summary as the specification words it: whitespace-collapsed,
trimmed, truncated to the fixed 5000-character budget. -/
def specSummary (body : String) : String :=
  strOf ((trimL (collapseSpec body.toList false)).take 5000)

/-- Collapse-and-truncate without the trim, for the part_006 comparison. -/
def specNoTrimSummary (body : String) : String :=
  strOf ((collapseSpec body.toList false).take 5000)

/-! ### The content-script message listeners -/

/-- Payload carried in a `sendResponse` reply: either a handler result or the
literal object built in the search.js default branch. -/
inductive RespData (α : Type) : Type
  | handler (a : α)
  | raw (ok : Bool) (err : String)
  deriving DecidableEq, Repr

/-- A `sendResponse` argument. -/
structure Resp (α : Type) : Type where
  success : Bool
  data : Option (RespData α)
  error : Option String
  deriving DecidableEq, Repr

/-- Message types the part_006 listener switches on. -/
def knownTypes006 : List String :=
  ["SEARCH", "WEBSITE_SEARCH", "FORM_FILL", "BOOK_TICKET", "SUMMARIZE"]

/-- The part_006 listener (lines 10-64), parameterized by the outcome of
whichever DOM handler the switch selects (`Except.error` models a throw).
Returns the list of `sendResponse` calls made, in order, and the listener's
return value.  The default branch throws `Unknown command`, which the catch
converts into a failure reply. -/
def listener006 (α : Type) (msgType : String) (hOut : Except String α) :
    List (Resp α) × Bool :=
  if msgType ∈ knownTypes006 then
    match hOut with
    | Except.ok a => ([{ success := true, data := some (RespData.handler a), error := none }], true)
    | Except.error e => ([{ success := false, data := none, error := some e }], true)
  else ([{ success := false, data := none, error := some "Unknown command" }], true)

/-- `message.data.data` shape for the search.js listener. -/
structure BgDD : Type where
  intent : String
  deriving DecidableEq, Repr

/-- `message.data` shape for the search.js listener. -/
structure BgData : Type where
  data : Option BgDD
  deriving DecidableEq, Repr

/-- A message as received by the search.js listener. -/
structure BgMsg : Type where
  data : Option BgData
  deriving DecidableEq, Repr

/-- Intents the search.js listener switches on. -/
def knownTypesBg : List String :=
  ["SEARCH", "NAVIGATION", "FORM_FILL", "WEBSITE_SEARCH", "BOOK_TICKET", "SUMMARIZE"]

/-- The search.js listener (lines 113-175).  The very first statement,
`console.log('[Content] Got:', message.data.data.intent.toUpperCase())`, runs
before the try/catch: a message missing `data` or `data.data` throws there
synchronously and no reply is ever sent (`none`).  Otherwise the switch runs
inside the try; its default branch does not throw but replies
`{success:true, data:{success:false, error:'Unknown command'}}`. -/
def listenerBg (α : Type) (m : BgMsg) (hOut : Except String α) :
    Option (List (Resp α) × Bool) :=
  match m.data with
  | none => none
  | some d =>
    match d.data with
    | none => none
    | some dd =>
      let key := upperStr dd.intent
      some
        (if key ∈ knownTypesBg then
          match hOut with
          | Except.ok a =>
            ([{ success := true, data := some (RespData.handler a), error := none }], true)
          | Except.error e => ([{ success := false, data := none, error := some e }], true)
        else
          ([{ success := true, data := some (RespData.raw false "Unknown command"),
              error := none }], true))

/-! ### Concrete instances used by closed theorems -/

/-- Decidable equality on `Except`, for evaluating pipeline results. -/
def exceptDecEq {α β : Type} [DecidableEq α] [DecidableEq β] :
    DecidableEq (Except α β) := fun a b =>
  match a, b with
  | Except.error x, Except.error y =>
    if h : x = y then isTrue (by rw [h]) else isFalse (by intro hc; cases hc; exact h rfl)
  | Except.error _, Except.ok _ => isFalse (by intro hc; cases hc)
  | Except.ok _, Except.error _ => isFalse (by intro hc; cases hc)
  | Except.ok x, Except.ok y =>
    if h : x = y then isTrue (by rw [h]) else isFalse (by intro hc; cases hc; exact h rfl)

instance {α β : Type} [DecidableEq α] [DecidableEq β] : DecidableEq (Except α β) :=
  exceptDecEq

/-- A fixed environment: a concrete clock reading and joke index. -/
def env0 : FbEnv :=
  { timeString := "10:30:00 AM", dateString := "Wednesday, January 1, 2025", jokeIdx := 0 }

/-- The default configuration from part_000: `LLM_MODEL` unset gives
`grok-beta`, `MAX_TEXT_LENGTH` unset gives 1000. -/
def cfg0 : Config := { llmModel := "grok-beta", maxTextLength := 1000 }

/-! ### Helper lemmas -/

/-- The inner keyword loop is `List.any` of the containment test. -/
theorem keywordLoop_eq_any (lt : List Char) (ks : List String) :
    keywordLoop lt ks = ks.any fun k => includesL lt k.toList := by
  induction ks with
  | nil => rfl
  | cons k ks ih => by_cases h : includesL lt k.toList <;> simp [keywordLoop, h, ih]

/-- The outer pattern loop is `List.find?` of the keyword hit. -/
theorem matchLoop_eq_find? (lt : List Char) (ps : List (String × PatData)) :
    matchLoop lt ps = ps.find? fun p => keywordLoop lt p.2.keywords := by
  induction ps with
  | nil => rfl
  | cons p ps ih => by_cases h : keywordLoop lt p.2.keywords <;> simp [matchLoop, h, ih]

/-- Whatever `matchLoop` returns is an element of the table. -/
theorem matchLoop_mem {lt : List Char} {ps : List (String × PatData)}
    {p : String × PatData} (h : matchLoop lt ps = some p) : p ∈ ps := by
  induction ps with
  | nil => simp [matchLoop] at h
  | cons q ps ih =>
    by_cases hq : keywordLoop lt q.2.keywords
    · simp [matchLoop, hq] at h
      simp [h]
    · simp [matchLoop, hq] at h
      exact List.mem_cons_of_mem _ (ih h)

/-- The fallback engine stamps every result with the fallback marker. -/
theorem fallback_model_marker (env : FbEnv) (text : String) :
    (fallbackIntentRecognition env text).model = "fallback-rule-based" := by
  cases h : matchLoop (lowerTrim text) patterns <;> simp [fallbackIntentRecognition, h]

/-- The app.js variant of `processIntent` does surface the fallback result's
marker: with no client configured, any valid text yields a result whose
`model` is `fallback-rule-based`. -/
theorem processIntentApp_fallback_marker (cfg : Config) (env : FbEnv) (text : String)
    (o : GrokOutcome) (res : IntentResult)
    (h : processIntentApp cfg env false text o = Except.ok res) :
    res.model = "fallback-rule-based" := by
  unfold processIntentApp at h
  cases hv : validateText cfg text with
  | error e => simp [hv] at h
  | ok t =>
    have hc : callGrok env t false o =
        Except.ok (flatToResponse (fallbackIntentRecognition env t)) := by
      simp [callGrok]
    simp only [hv, hc] at h
    simp only [Except.ok.injEq] at h
    subst h
    simp [flatToResponse, jsOrS, fallback_model_marker]

/-- Claim C1 (code bug in part_002): with no client configured, `processIntent`
as written in part_002 normalizes through `result?.data?.*`, but the fallback
result is a flat object with no `data` member, so the fallback's fields are
discarded: on input `hello` the caller receives intent `unknown`, empty
entities, the placeholder message, confidence 0.5 and `model` equal to
`config.llm.model` (`grok-beta`) — not the fallback marker — even though the
fallback engine produced intent `greeting` with `model` `fallback-rule-based`. -/
theorem processIntent002_drops_fallback_marker :
    processIntent002 cfg0 env0 false "hello" GrokOutcome.parseFail =
        Except.ok
          { intent := "unknown", entities := [], message := "Processing complete",
            confidence := 0.5, model := "grok-beta" }
      ∧ (fallbackIntentRecognition env0 "hello").model = "fallback-rule-based"
      ∧ (fallbackIntentRecognition env0 "hello").intent = "greeting"
      ∧ "grok-beta" ≠ "fallback-rule-based" := by
  with_unfolding_all decide

/-- Claim C2, counterexample: the fallback engine classifies `hello` as
intent `greeting`, which is not in the specification's closed intent set. -/
theorem fallback_greeting_outside_spec_enum :
    (fallbackIntentRecognition env0 "hello").intent = "greeting"
      ∧ "greeting" ∉ (["search", "qna", "summarize", "form_fill", "book_ticket",
          "website_search", "navigation", "other", "unknown"] : List String) := by
  with_unfolding_all decide

/-- Claim C2 (amended): every `fallbackIntentRecognition` result has an
intent from the table's pattern names plus `unknown` — the set {greeting,
farewell, thanks, help, time, date, weather, search, open_website, reminder,
calculation, joke, unknown}; the specification's nine-element closed set
constrains only the LLM JSON-schema enum, not the fallback engine. -/
theorem fallback_intent_mem_fallback_set (env : FbEnv) (text : String) :
    (fallbackIntentRecognition env text).intent ∈
      (["greeting", "farewell", "thanks", "help", "time", "date", "weather", "search",
        "open_website", "reminder", "calculation", "joke", "unknown"] : List String) := by
  cases h : matchLoop (lowerTrim text) patterns with
  | none => simp [fallbackIntentRecognition, h]
  | some pd =>
    have hm : pd ∈ patterns := matchLoop_mem h
    have h1 : pd.1 ∈ patterns.map Prod.fst := List.mem_map_of_mem Prod.fst hm
    have h2 : patterns.map Prod.fst = ["greeting", "farewell", "thanks", "help", "time",
        "date", "weather", "search", "open_website", "reminder", "calculation", "joke"] := rfl
    rw [h2] at h1
    simp only [List.mem_cons, List.not_mem_nil, or_false] at h1
    rcases h1 with h1 | h1 | h1 | h1 | h1 | h1 | h1 | h1 | h1 | h1 | h1 | h1 <;>
      simp [fallbackIntentRecognition, h, h1]

/-- The catch block can only throw the 502 and 429 `ApiError`s. -/
theorem grokCatch_error {env : FbEnv} {t : String} {st : Option Nat} {e : ApiErr}
    (h : grokCatch env t st = Except.error e) :
    e.statusCode = 502 ∨ e.statusCode = 429 := by
  unfold grokCatch at h
  split at h
  · cases h; left; rfl
  · split at h
    · cases h; right; rfl
    · split at h <;> simp at h

/-- `callGrok` can only throw the 502 and 429 `ApiError`s. -/
theorem callGrok_error {env : FbEnv} {t : String} {c : Bool} {o : GrokOutcome} {e : ApiErr}
    (h : callGrok env t c o = Except.error e) :
    e.statusCode = 502 ∨ e.statusCode = 429 := by
  unfold callGrok at h
  split at h
  · simp at h
  · cases o with
    | parsed r => simp at h
    | parseFail => exact grokCatch_error h
    | errStatus st => exact grokCatch_error h

/-- The validation prefix can only throw 400 `ApiError`s. -/
theorem validateText_error {cfg : Config} {text : String} {e : ApiErr}
    (h : validateText cfg text = Except.error e) : e.statusCode = 400 := by
  unfold validateText at h
  split at h
  · cases h; rfl
  · split at h
    · cases h; rfl
    · split at h
      · cases h; rfl
      · simp at h

/-- Claim C3: the part_002 `callGrok` catch dispatch — a 401 provider error is
rethrown as a 502 `ApiError`, a 429 as a 429 `ApiError`; 500, 503, the
JSON-parse failure (an exception without a `status`, thrown after the `{...}`
extraction attempt) and every other exception return
`fallbackIntentRecognition(text)`; consequently every error thrown out of
`processIntent` has status 400 (validation), 502, or 429. -/
theorem callGrok_error_policy (env : FbEnv) (text : String) :
    callGrok env text true (GrokOutcome.errStatus (some 401)) =
        Except.error { statusCode := 502, message := "Invalid LLM API key configuration" }
      ∧ callGrok env text true (GrokOutcome.errStatus (some 429)) =
          Except.error
            { statusCode := 429, message := "Rate limit exceeded. Please try again later." }
      ∧ callGrok env text true (GrokOutcome.errStatus (some 500)) =
          Except.ok (flatToResponse (fallbackIntentRecognition env text))
      ∧ callGrok env text true (GrokOutcome.errStatus (some 503)) =
          Except.ok (flatToResponse (fallbackIntentRecognition env text))
      ∧ callGrok env text true GrokOutcome.parseFail =
          Except.ok (flatToResponse (fallbackIntentRecognition env text))
      ∧ (∀ st : Option Nat, st ≠ some 401 → st ≠ some 429 →
          callGrok env text true (GrokOutcome.errStatus st) =
            Except.ok (flatToResponse (fallbackIntentRecognition env text)))
      ∧ (∀ (cfg : Config) (c : Bool) (o : GrokOutcome) (e : ApiErr),
          processIntent002 cfg env c text o = Except.error e →
            e.statusCode = 400 ∨ e.statusCode = 502 ∨ e.statusCode = 429) := by
  refine ⟨?_, ?_, ?_, ?_, ?_, ?_, ?_⟩
  · simp [callGrok, grokCatch]
  · simp [callGrok, grokCatch]
  · simp [callGrok, grokCatch]
  · simp [callGrok, grokCatch]
  · simp [callGrok, grokCatch]
  · intro st h1 h2
    simp [callGrok, grokCatch, h1, h2, ite_self]
  · intro cfg c o e h
    unfold processIntent002 at h
    cases hv : validateText cfg text with
    | error e2 =>
      simp only [hv, Except.error.injEq] at h
      subst h
      exact Or.inl (validateText_error hv)
    | ok t =>
      simp only [hv] at h
      cases hg : callGrok env t c o with
      | error e2 =>
        simp only [hg, Except.error.injEq] at h
        subst h
        exact Or.inr (callGrok_error hg)
      | ok r =>
        simp only [hg] at h
        simp at h

/-- Witness for `callGrok_error_policy`: the status-less-error conjunct at a
concrete status and the propagation conjunct at the concrete empty-text 400
error. -/
theorem callGrok_error_policy_witness :
    callGrok env0 "" true (GrokOutcome.errStatus none) =
        Except.ok (flatToResponse (fallbackIntentRecognition env0 ""))
      ∧ (({ statusCode := 400, message := "Invalid text input" } : ApiErr).statusCode = 400
          ∨ ({ statusCode := 400, message := "Invalid text input" } : ApiErr).statusCode = 502
          ∨ ({ statusCode := 400, message := "Invalid text input" } : ApiErr).statusCode = 429) :=
  ⟨(callGrok_error_policy env0 "").2.2.2.2.2.1 none (by decide) (by decide),
    (callGrok_error_policy env0 "").2.2.2.2.2.2 cfg0 true GrokOutcome.parseFail
      { statusCode := 400, message := "Invalid text input" } (by with_unfolding_all decide)⟩

/-- Claim C4: the fallback engine is first-match-wins over the table in
declaration order (the `List.find?` on the left is the specification-side
formulation: the first pattern one of whose keywords — scanned in listed
order via `List.any` — is contained in the lowercased trimmed input); the
result's `intent` is that pattern's name and its `confidence` is that
pattern's declared confidence. -/
theorem fallback_first_match_wins (env : FbEnv) (text : String) :
    (∀ n : String,
        ((patterns.find? fun p =>
              p.2.keywords.any fun k => includesL (lowerTrim text) k.toList).map
            Prod.fst) = some n →
          (fallbackIntentRecognition env text).intent = n)
      ∧ (∀ q : Rat,
          ((patterns.find? fun p =>
                p.2.keywords.any fun k => includesL (lowerTrim text) k.toList).map
              fun p => p.2.confidence) = some q →
            (fallbackIntentRecognition env text).confidence = q) := by
  have hfind : (patterns.find? fun p =>
      p.2.keywords.any fun k => includesL (lowerTrim text) k.toList) =
      matchLoop (lowerTrim text) patterns := by
    rw [matchLoop_eq_find?]
    congr 1
    funext p
    exact (keywordLoop_eq_any _ _).symm
  constructor
  · intro n hn
    rw [hfind] at hn
    cases h : matchLoop (lowerTrim text) patterns with
    | none => rw [h] at hn; simp at hn
    | some pd =>
      rw [h] at hn
      simp only [Option.map_some', Option.some.injEq] at hn
      simp [fallbackIntentRecognition, h, hn]
  · intro q hq
    rw [hfind] at hq
    cases h : matchLoop (lowerTrim text) patterns with
    | none => rw [h] at hq; simp at hq
    | some pd =>
      rw [h] at hq
      simp only [Option.map_some', Option.some.injEq] at hq
      simp [fallbackIntentRecognition, h, hq]

/-- Witness for `fallback_first_match_wins`: on input `joke` the first (and
only) hit is the `joke` pattern, so the intent is `joke` and the confidence
is its declared 0.80. -/
theorem fallback_first_match_wins_witness :
    (fallbackIntentRecognition env0 "joke").intent = "joke"
      ∧ (fallbackIntentRecognition env0 "joke").confidence = 0.80 :=
  ⟨(fallback_first_match_wins env0 "joke").1 "joke" (by decide),
    (fallback_first_match_wins env0 "joke").2 0.80 (by with_unfolding_all decide)⟩

/-- Claim C5: on input `what is 5 plus 3` the fallback engine fires the
`calculation` pattern (keyword `what is`), builds expression `5 + 3`,
evaluates it to 8, and returns message `The answer is 8.` with entities
including the expression, the result and the `calculate` action. -/
theorem fallback_calculation_example (env : FbEnv) :
    (fallbackIntentRecognition env "what is 5 plus 3").intent = "calculation"
      ∧ (fallbackIntentRecognition env "what is 5 plus 3").message = "The answer is 8."
      ∧ entGet (fallbackIntentRecognition env "what is 5 plus 3").entities "expression" =
          some (EntVal.s "5 + 3")
      ∧ entGet (fallbackIntentRecognition env "what is 5 plus 3").entities "result" =
          some (EntVal.q 8)
      ∧ entGet (fallbackIntentRecognition env "what is 5 plus 3").entities "action" =
          some (EntVal.s "calculate") := by
  refine ⟨?_, ?_, ?_, ?_, ?_⟩ <;> with_unfolding_all rfl

/-- Claim C6, counterexample: `handleOpenSite` resolves the fallback's
`youtube` website entity to `https://youtube` — it consults no name-to-domain
lookup table and no `https://www.<website>.com` fallback (those rules exist
only as instructions in the LLM prompt) — and the fallback intent for
`open youtube` is `open_website`, for which the dispatcher has no handler at
all, so dispatch yields the NONE action rather than any URL. -/
theorem open_youtube_resolution_counterexample :
    handleOpenSiteUrl "youtube" = "https://youtube"
      ∧ ("https://youtube" : String) ≠ "https://www.youtube.com"
      ∧ (fallbackIntentRecognition env0 "open youtube").intent = "open_website"
      ∧ entGet (fallbackIntentRecognition env0 "open youtube").entities "website" =
          some (EntVal.s "youtube")
      ∧ dispatchAction "open_website"
          { query := none, keywords := none, website := some "youtube" } =
          some Action.none_ := by
  with_unfolding_all decide

/-- Claim C6 (amended): `handleOpenSite` resolves the URL from
`entities.website` alone — unchanged when it starts with `http`, otherwise
prefixed with `https://`; there is no `entities.url` check, no static lookup
table and no `www...com` synthesis in the dispatch code; and the fallback
intent `open_website` has no dispatcher handler, so it maps to the NONE
action. -/
theorem handleOpenSite_resolution :
    (∀ w : String, startsWithHttp w = true → handleOpenSiteUrl w = w)
      ∧ (∀ w : String, startsWithHttp w = false → handleOpenSiteUrl w = "https://" ++ w)
      ∧ (∀ e : DEnt, dispatchAction "open_website" e = some Action.none_)
      ∧ (∀ w : String,
          handleOpenSite { query := none, keywords := none, website := some w } =
            some (Action.openUrl (handleOpenSiteUrl w))) := by
  refine ⟨?_, ?_, ?_, ?_⟩
  · intro w h
    simp [handleOpenSiteUrl, h]
  · intro w h
    simp [handleOpenSiteUrl, h]
  · intro e
    rfl
  · intro w
    rfl

/-- Witness for `handleOpenSite_resolution`: a schemed website is kept, an
unschemed one gets the bare `https://` prefix. -/
theorem handleOpenSite_resolution_witness :
    handleOpenSiteUrl "https://x.com" = "https://x.com"
      ∧ handleOpenSiteUrl "youtube" = "https://youtube" :=
  ⟨handleOpenSite_resolution.1 "https://x.com" (by decide),
    handleOpenSite_resolution.2.1 "youtube" (by decide)⟩

/-- Claim C7: `extractEntities` is a pure function (two calls on the same
text agree definitionally), it yields at most one `time`, `url`, `email` and
`date` — each the leftmost match of its pattern — with the `MM/DD/YYYY` date
pattern tried before `YYYY-MM-DD`, and a key with no match is absent from the
result (the lookup is `none`, never an empty string). -/
theorem extractEntities_structure (t : String) :
    extractEntities t = extractEntities t
      ∧ entGet (extractEntities t) "time" = (firstTimeMatch t).map (fun m => EntVal.s (strOf m))
      ∧ entGet (extractEntities t) "url" = (firstUrlMatch t).map (fun m => EntVal.s (strOf m))
      ∧ entGet (extractEntities t) "email" =
          (firstEmailMatch t).map (fun m => EntVal.s (strOf m))
      ∧ entGet (extractEntities t) "date" =
          (match firstSlashDate t with
            | some m => some (EntVal.s (strOf m))
            | none => (firstDashDate t).map (fun m => EntVal.s (strOf m))) := by
  refine ⟨rfl, ?_, ?_, ?_, ?_⟩ <;>
    · by_cases h0 : digitRuns t.data = [] <;>
        cases h1 : firstTimeMatch t <;>
        cases h2 : firstUrlMatch t <;>
        cases h3 : firstEmailMatch t <;>
        cases h4 : firstSlashDate t <;>
        cases h5 : firstDashDate t <;>
        simp [extractEntities, entGet, h0, h1, h2, h3, h4, h5]

/-- Skipping a whitespace run with the flag set agrees with restarting after
`dropWhile`. -/
theorem collapseSpec_dropWhile (tl : List Char) :
    collapseSpec (tl.dropWhile wsChar) false = collapseSpec tl true := by
  induction tl with
  | nil => rfl
  | cons c tl ih =>
    by_cases hw : wsChar c <;> simp [collapseSpec, List.dropWhile_cons, hw, ih]

/-- The fueled `replace(/\s+/g, ' ')` worker computes the specification-side
collapse whenever the fuel dominates the input length. -/
theorem collapseWsGo_spec : ∀ (f : Nat) (l : List Char), l.length ≤ f →
    collapseWsGo f l = collapseSpec l false := by
  intro f
  induction f with
  | zero =>
    intro l h
    have : l = [] := List.eq_nil_of_length_eq_zero (Nat.le_zero.mp h)
    subst this
    rfl
  | succ f ih =>
    intro l h
    cases l with
    | nil => rfl
    | cons c tl =>
      by_cases hw : wsChar c
      · have hlen : (tl.dropWhile wsChar).length ≤ f :=
          le_trans (List.dropWhile_sublist wsChar).length_le (Nat.le_of_succ_le_succ h)
        simp [collapseWsGo, collapseSpec, hw, ih _ hlen, collapseSpec_dropWhile]
      · simp [collapseWsGo, collapseSpec, hw, ih tl (Nat.le_of_succ_le_succ h)]

/-- Claim C8 (amended): the search.js `handleSummarize` summary equals the
specification's collapse-trim-truncate normal form, and both executors cap
the summary at 5000 characters; but the part_006 `summarize` only collapses
and truncates — it does not trim. -/
theorem summarize_normalization (body : String) :
    handleSummarize body = specSummary body
      ∧ summarize body = specNoTrimSummary body
      ∧ (handleSummarize body).toList.length ≤ 5000
      ∧ (summarize body).toList.length ≤ 5000 := by
  have hc : collapseWsJs body.data = collapseSpec body.data false :=
    collapseWsGo_spec _ _ (le_refl _)
  refine ⟨?_, ?_, ?_, ?_⟩
  · simp [handleSummarize, specSummary, hc]
  · simp [summarize, specNoTrimSummary, hc]
  · have h : (handleSummarize body).toList = (trimL (collapseWsJs body.toList)).take 5000 := rfl
    rw [h, List.length_take]
    exact min_le_left _ _
  · have h : (summarize body).toList = (collapseWsJs body.toList).take 5000 := rfl
    rw [h, List.length_take]
    exact min_le_left _ _

/-- Claim C8, counterexample: on the body `" a"` the part_006 `summarize`
returns `" a"` — the leading whitespace run survives as a single space —
whereas the claimed normalization (collapse, trim, truncate) yields `"a"`. -/
theorem summarize_no_trim_counterexample :
    summarize " a" = " a" ∧ specSummary " a" = "a" ∧ (" a" : String) ≠ "a" := by
  decide

/-- Filtering establishes the filtered predicate everywhere. -/
theorem all_filter_self (p : Char → Bool) (l : List Char) : (l.filter p).all p = true := by
  induction l with
  | nil => rfl
  | cons c tl ih => by_cases h : p c <;> simp [List.filter_cons, h, ih]

/-- Every character of the trimmed list occurs in the original. -/
theorem mem_trimL {c : Char} {l : List Char} (h : c ∈ trimL l) : c ∈ l := by
  unfold trimL at h
  rw [List.mem_reverse] at h
  have h2 := (List.dropWhile_sublist wsChar).subset h
  rw [List.mem_reverse] at h2
  exact (List.dropWhile_sublist wsChar).subset h2

/-- Trimming preserves an all-characters property. -/
theorem all_trimL {p : Char → Bool} {l : List Char} (h : l.all p = true) :
    (trimL l).all p = true := by
  rw [List.all_eq_true] at h ⊢
  intro c hc
  exact h c (mem_trimL hc)

/-- The expression the calculation handler builds consists of safe characters
only, before the regex test even runs: the strip replace removed everything
else and the trim only drops characters. -/
theorem strOf_toList (l : List Char) : (strOf l).toList = l := rfl

theorem calcExpr_all_safe (text : String) :
    (calcExpr text).toList.all isSafeCalcChar = true := by
  unfold calcExpr
  rw [strOf_toList]
  exact all_trimL (all_filter_self isSafeCalcChar _)

/-- Claim C9: `eval` is only ever invoked on a nonempty string all of whose
characters lie in `[0-9+\-*\/().\s]` (the strip guarantees the class
unconditionally and the regex test adds nonemptiness), and the handler is
total: when the guard fails it returns the fixed could-not-understand result,
and when the evaluation throws (the `ev s = none` case) the catch converts it
into the apology result with empty entities. -/
theorem calculation_eval_guard (ev : String → Option Rat) (text : String) :
    (calcExpr text).toList.all isSafeCalcChar = true
      ∧ (∀ s : String, calculationEvalArg text = some s →
          s.toList ≠ [] ∧ s.toList.all isSafeCalcChar = true)
      ∧ (calculationEvalArg text = none →
          calculationHandler ev text =
            { message := "I couldn't understand that calculation. Try asking like 'what is 5 plus 3?'"
              entities := [] })
      ∧ (∀ s : String, calculationEvalArg text = some s → ev s = none →
          calculationHandler ev text =
            { message := "Sorry, I couldn't calculate that. Please try again."
              entities := [] }) := by
  refine ⟨calcExpr_all_safe text, ?_, ?_, ?_⟩
  · intro s hs
    unfold calculationEvalArg at hs
    by_cases h : safeTest (calcExpr text) = true
    · rw [if_pos h] at hs
      simp only [Option.some.injEq] at hs
      subst hs
      simpa [safeTest] using h
    · rw [if_neg h] at hs
      simp at hs
  · intro hn
    unfold calculationEvalArg at hn
    by_cases h : safeTest (calcExpr text) = true
    · rw [if_pos h] at hn
      simp at hn
    · simp only [calculationHandler]
      rw [if_neg h]
  · intro s hs hev
    unfold calculationEvalArg at hs
    by_cases h : safeTest (calcExpr text) = true
    · rw [if_pos h] at hs
      simp only [Option.some.injEq] at hs
      subst hs
      simp only [calculationHandler]
      rw [if_pos h, hev]
    · rw [if_neg h] at hs
      simp at hs

/-- Witness for `calculation_eval_guard`: the guard conjunct at the concrete
expression `5 + 3` built from `what is 5 plus 3`, and the catch conjunct with
an `eval` model that always throws. -/
theorem calculation_eval_guard_witness :
    (("5 + 3" : String).toList ≠ [] ∧ ("5 + 3" : String).toList.all isSafeCalcChar = true)
      ∧ calculationHandler (fun _ => none) "what is 5 plus 3" =
          { message := "Sorry, I couldn't calculate that. Please try again."
            entities := [] } :=
  ⟨(calculation_eval_guard evalArith "what is 5 plus 3").2.1 "5 + 3" (by decide),
    (calculation_eval_guard (fun _ => none) "what is 5 plus 3").2.2.2 "5 + 3" (by decide) rfl⟩

/-- Claim C10, counterexample: the search.js listener dereferences
`message.data.data.intent` in a `console.log` before its try/catch, so a
message whose `data` is absent throws synchronously and the listener makes no
`sendResponse` call at all (`none`: no reply list is ever produced), refuting
"no message path exits without a reply". -/
theorem listenerBg_malformed_no_reply :
    listenerBg Unit { data := none } (Except.ok ()) = none := rfl

/-- Claim C10 (amended): the part_006 listener calls `sendResponse` exactly
once and returns `true` for every message and every handler outcome
(success wrapped as `{success:true, data}`, a thrown handler as
`{success:false, error}`, and the unknown-command default — which throws
`Unknown command` — as `{success:false, error:'Unknown command'}`); the
search.js listener does the same only for messages whose
`message.data.data.intent` path exists. -/
theorem listener_reply_discipline (α : Type) (t : String) (hOut : Except String α)
    (dd : BgDD) :
    (listener006 α t hOut).1.length = 1
      ∧ (listener006 α t hOut).2 = true
      ∧ (t ∉ knownTypes006 →
          listener006 α t hOut =
            ([{ success := false, data := none, error := some "Unknown command" }], true))
      ∧ (∀ a : α, hOut = Except.ok a → t ∈ knownTypes006 →
          listener006 α t hOut =
            ([{ success := true, data := some (RespData.handler a), error := none }], true))
      ∧ (∀ e : String, hOut = Except.error e → t ∈ knownTypes006 →
          listener006 α t hOut = ([{ success := false, data := none, error := some e }], true))
      ∧ (∃ l : List (Resp α), ∃ b : Bool,
          listenerBg α { data := some { data := some dd } } hOut = some (l, b)
            ∧ l.length = 1 ∧ b = true) := by
  refine ⟨?_, ?_, ?_, ?_, ?_, ?_⟩
  · by_cases h : t ∈ knownTypes006
    · cases hOut <;> simp [listener006, h]
    · simp [listener006, h]
  · by_cases h : t ∈ knownTypes006
    · cases hOut <;> simp [listener006, h]
    · simp [listener006, h]
  · intro h
    simp [listener006, h]
  · intro a ha h
    subst ha
    simp [listener006, h]
  · intro e he h
    subst he
    simp [listener006, h]
  · by_cases hk : upperStr dd.intent ∈ knownTypesBg
    · cases hOut with
      | ok a =>
        exact ⟨[{ success := true, data := some (RespData.handler a), error := none }], true,
          by simp [listenerBg, hk], rfl, rfl⟩
      | error e =>
        exact ⟨[{ success := false, data := none, error := some e }], true,
          by simp [listenerBg, hk], rfl, rfl⟩
    · exact ⟨[{ success := true, data := some (RespData.raw false "Unknown command"), error := none }], true, by simp [listenerBg, hk], rfl, rfl⟩

/-- Witness for `listener_reply_discipline`: a successful `SEARCH` handler is
wrapped as a success reply, and an unknown type still gets exactly one
failure reply. -/
theorem listener_reply_discipline_witness :
    listener006 Unit "SEARCH" (Except.ok ()) =
        ([{ success := true, data := some (RespData.handler ()), error := none }], true)
      ∧ listener006 Unit "BOGUS" (Except.error "x") =
          ([{ success := false, data := none, error := some "Unknown command" }], true) :=
  ⟨(listener_reply_discipline Unit "SEARCH" (Except.ok ()) ⟨"navigation"⟩).2.2.2.1 () rfl
      (by decide),
    (listener_reply_discipline Unit "BOGUS" (Except.error "x") ⟨"navigation"⟩).2.2.1
      (by decide)⟩

end Voice2Web
